import Mathlib

/-!
Verification of the carbon-footprint calculator (`src/app.py`).

The two functions under scrutiny are `validate_input` and `compute`.
Numeric form fields are modelled as `Option ℚ`: `some q` is a numeric value,
`none` models a value on which Python's `float(...)` raises
(`TypeError`/`ValueError`), i.e. a non-numeric submission.  A raised
`gr.Error` is modelled as returning `some e : Option VError`; a validation
pass returns `none`.
-/

namespace CarbonApp

/-- A form submission: the eight raw inputs of `compute`/`validate_input`. -/
structure Submission where
  company_name : String
  avg_electric_bill : Option ℚ
  avg_gas_bill : Option ℚ
  avg_transport_cost : Option ℚ
  monthly_waste_generated : Option ℚ
  recycled_waste_percent : Option ℚ
  annual_travel_kms : Option ℚ
  fuel_efficiency : Option ℚ
deriving Repr, DecidableEq

/-- The distinct `gr.Error` raises of `validate_input`, one constructor per
`raise` site (the two parameterised messages carry the field name). -/
inductive VError where
  | nameEmpty
  | nameTooLong
  | notANumber (field : String)
  | notPositive (field : String)
  | electricityTooHigh
  | wasteTooHigh
  | percentNotANumber
  | percentOutOfRange
deriving Repr, DecidableEq

/-- The message text of each `gr.Error` in `validate_input`. -/
def VError.message : VError → String
  | .nameEmpty => "Company name cannot be empty or just whitespace!"
  | .nameTooLong => "Company name is too long (maximum 100 characters)!"
  | .notANumber field => field ++ " must be a valid number!"
  | .notPositive field => field ++ " must be a positive number greater than zero!"
  | .electricityTooHigh => "Electricity bill seems unrealistically high. Please check the amount!"
  | .wasteTooHigh => "Monthly waste generation seems extremely high. Please verify!"
  | .percentNotANumber => "Recycled waste percentage must be a valid number!"
  | .percentOutOfRange => "Recycled waste percentage must be between 0 and 100!"

/-- Python `str.isspace` on a single character: CPython's whitespace set,
i.e. U+0009–U+000D, U+001C–U+001F, the space, U+0085 (NEL), U+00A0 (NBSP),
U+1680, U+2000–U+200A, U+2028, U+2029, U+202F, U+205F and U+3000. -/
def pyIsSpaceChar (c : Char) : Bool :=
  (0x09 ≤ c.toNat ∧ c.toNat ≤ 0x0d) ∨ (0x1c ≤ c.toNat ∧ c.toNat ≤ 0x1f) ∨
  c.toNat = 0x20 ∨ c.toNat = 0x85 ∨ c.toNat = 0xa0 ∨ c.toNat = 0x1680 ∨
  (0x2000 ≤ c.toNat ∧ c.toNat ≤ 0x200a) ∨ c.toNat = 0x2028 ∨ c.toNat = 0x2029 ∨
  c.toNat = 0x202f ∨ c.toNat = 0x205f ∨ c.toNat = 0x3000

/-- Python `str.isspace`: true iff the string is non-empty and every
character is whitespace. -/
def pyIsSpace (s : String) : Bool :=
  !s.isEmpty && s.data.all pyIsSpaceChar

/-- The `non_zero_fields` list built in `validate_input` (same order as the
source). -/
def non_zero_fields (s : Submission) : List (String × Option ℚ) :=
  [ ("Electricity Bill", s.avg_electric_bill),
    ("Gas Bill", s.avg_gas_bill),
    ("Transport Cost", s.avg_transport_cost),
    ("Monthly Waste", s.monthly_waste_generated),
    ("Annual Travel Distance", s.annual_travel_kms),
    ("Fuel Efficiency", s.fuel_efficiency) ]

/-- One iteration of the `for name, value in non_zero_fields` loop body:
`float(value)` failing raises "must be a valid number", `float_val <= 0`
raises "must be positive", then the two realistic-range checks guarded by
the field name. -/
def checkNonZeroField : String × Option ℚ → Option VError
  | (name, value) =>
    match value with
    | none => some (.notANumber name)
    | some float_val =>
      if float_val ≤ 0 then some (.notPositive name)
      else if name = "Electricity Bill" ∧ 10000 < float_val then some .electricityTooHigh
      else if name = "Monthly Waste" ∧ 1000 < float_val then some .wasteTooHigh
      else none

/-- The loop over `non_zero_fields`: the first raised error, if any. -/
def loopNonZeroFields : List (String × Option ℚ) → Option VError
  | [] => none
  | entry :: rest =>
    match checkNonZeroField entry with
    | some e => some e
    | none => loopNonZeroFields rest

/-- `validate_input` from `src/app.py`: company-name checks, then the loop
over the six non-zero fields, then the recycled-percentage checks.  Returns
`some e` for the first `gr.Error` raised, `none` if validation passes. -/
def validate_input (s : Submission) : Option VError :=
  if s.company_name = "" ∨ pyIsSpace s.company_name = true then some .nameEmpty
  else if 100 < s.company_name.length then some .nameTooLong
  else
    match loopNonZeroFields (non_zero_fields s) with
    | some e => some e
    | none =>
      match s.recycled_waste_percent with
      | none => some .percentNotANumber
      | some recycled_percent =>
        if recycled_percent < 0 ∨ 100 < recycled_percent then some .percentOutOfRange
        else none

/-! ### The `compute` pipeline

`emission_calculator.calculator` (imported as `ec`) is part of this
repository but its source is not under `src/`; `make_dataframe`,
`draw_report_figure` and the plotly image backend are therefore modelled
from the spec.  `base64.b64encode` is modelled by a real base64 encoder. -/

/-- Modelled from the spec: `ec.make_dataframe` is not under `src/`.  The
spec says the computation is a deterministic, stateless formula over the
eight validated inputs, so the dataframe is modelled as the record of the
keyword arguments of the call in `compute` (the transport field keeps the
source's keyword name `avg_transport_bill`). -/
structure DataFrame where
  company_name : String
  avg_electric_bill : ℚ
  avg_gas_bill : ℚ
  avg_transport_bill : ℚ
  monthly_waste_generated : ℚ
  recycled_waste_percent : ℚ
  annual_travel_kms : ℚ
  fuel_efficiency : ℚ
deriving Repr, DecidableEq

/-- Modelled from the spec: `ec.make_dataframe` packages the validated
inputs into the dataframe, deterministically. -/
def make_dataframe (company_name : String) (avg_electric_bill avg_gas_bill
    avg_transport_bill monthly_waste_generated recycled_waste_percent
    annual_travel_kms fuel_efficiency : ℚ) : DataFrame :=
  { company_name := company_name
    avg_electric_bill := avg_electric_bill
    avg_gas_bill := avg_gas_bill
    avg_transport_bill := avg_transport_bill
    monthly_waste_generated := monthly_waste_generated
    recycled_waste_percent := recycled_waste_percent
    annual_travel_kms := annual_travel_kms
    fuel_efficiency := fuel_efficiency }

/-- Modelled from the spec: the plotly figure returned by
`ec.draw_report_figure` is determined by the dataframe it charts. -/
structure Figure where
  df : DataFrame
deriving Repr, DecidableEq

/-- Modelled from the spec: `ec.draw_report_figure` assembles the chart
from the dataframe, deterministically. -/
def draw_report_figure (df : DataFrame) : Figure := ⟨df⟩

/-- The eight-byte PNG file signature: every PNG rendering starts with it. -/
def pngSignature : List ℕ := [137, 80, 78, 71, 13, 10, 26, 10]

/-- Modelled from the spec: `plot.to_image(..., format="png")` renders the
figure to PNG bytes; it is deterministic in the figure and the render
parameters, and its output carries the PNG signature. -/
def Figure.to_image (fig : Figure) (width height : ℕ) (format : String) : List ℕ :=
  pngSignature ++
    ((toString width ++ "x" ++ toString height ++ format ++ reprStr fig).toUTF8.toList.map
      (fun b => b.toNat))

/-- The base64 alphabet, as in RFC 4648 (used by Python `base64.b64encode`). -/
def base64Alphabet : List Char :=
  "ABCDEFGHIJKLMNOPQRSTUVWXYZabcdefghijklmnopqrstuvwxyz0123456789+/".data

/-- Look up a 6-bit value in the base64 alphabet. -/
def b64char (n : ℕ) : Char := base64Alphabet.getD n '='

/-- Python `base64.b64encode(...).decode("utf-8")`: standard base64 with
padding, over a byte list. -/
def b64encode : List ℕ → String
  | [] => ""
  | [a] =>
    String.mk [b64char (a / 4), b64char (a % 4 * 16), '=', '=']
  | [a, b] =>
    String.mk [b64char (a / 4), b64char (a % 4 * 16 + b / 16), b64char (b % 16 * 4), '=']
  | a :: b :: c :: rest =>
    String.mk [b64char (a / 4), b64char (a % 4 * 16 + b / 16),
      b64char (b % 16 * 4 + c / 64), b64char (c % 64)] ++ b64encode rest

/-- Model of Python's `repr`/str formatting of a float that holds an exact
rational: integral values print with a trailing `.0` as Python floats do. -/
def pyFloatStr (q : ℚ) : String :=
  if q.den = 1 then toString q.num ++ ".0" else toString q

/-- Model of Python's `:.2f` format on a float holding an exact rational:
round to hundredths and print with two decimals. -/
def format2f (q : ℚ) : String :=
  let n : ℤ := round (q * 100)
  toString (n / 100) ++ "." ++ (if (n % 100).natAbs < 10 then "0" else "") ++
    toString (n % 100).natAbs

/-- Python `str.lower()`: character-wise lower-casing. -/
def pyLower (s : String) : String := String.mk (s.data.map Char.toLower)

/-- Python `str.replace(pat, repl)` for the single-character pattern and
replacement used in `compute`: replace every occurrence of the character. -/
def pyReplaceChar (s : String) (pat repl : Char) : String :=
  String.mk (s.data.map (fun c => if c = pat then repl else c))

/-- Python slicing `[:n]`: the first `n` characters. -/
def pyTake (s : String) (n : ℕ) : String := String.mk (s.data.take n)

/-- The report file path built in `compute`:
`f'./reports/{company_name.lower().replace(' ', '_')[:10]}_report.pdf'`. -/
def report_file_path (company_name : String) : String :=
  "./reports/" ++ pyTake (pyReplaceChar (pyLower company_name) ' ' '_') 10 ++ "_report.pdf"

/-- The summary HTML f-string assembled in `compute`. -/
def summaryHtml (company_name : String) (avg_electric_bill avg_gas_bill
    monthly_waste_generated recycled_waste_percent annual_travel_kms : ℚ)
    (img_data : String) : String :=
  "\n    <div style=\"max-width: 1400px; margin: 0 auto; font-family: Arial, sans-serif;\">\n" ++
  "        <h3 style=\"color: #ffffff;\"> Carbon Footprint Summary for " ++ company_name ++
  " </h3>\n" ++
  "        <ul style=\"color: #666;\">\n" ++
  "            <li>🏭 <strong>Total Carbon Impact</strong>: Calculated based on your inputs</li>\n" ++
  "            <li>💡 <strong>Energy Consumption</strong>: €" ++
  format2f (avg_electric_bill + avg_gas_bill) ++ "</li>\n" ++
  "            <li>🚗 <strong>Transportation Emissions</strong>: " ++
  pyFloatStr annual_travel_kms ++ " km</li>\n" ++
  "            <li>🗑️ <strong>Waste Management</strong>: " ++
  pyFloatStr monthly_waste_generated ++ " kg (Recycled: " ++
  pyFloatStr recycled_waste_percent ++ "%)</li>\n" ++
  "        </ul>\n" ++
  "        <img src=\"data:image/png;base64," ++ img_data ++
  "\" style=\"max-width: 100%; height: auto;\" alt=\"Carbon Footprint Report\"/>\n" ++
  "    </div>\n    "

/-- What a successful `compute` call produces: the summary HTML (first
return value), the base64 image embedded in it, the download-button value
(second return value), and the files written on disk as a side effect. -/
structure ComputeResult where
  summary : String
  img_data : String
  download_path : String
  files_written : List String
deriving Repr, DecidableEq

/-- Errors escaping `compute`: the re-raised `gr.Error` of `validate_input`,
or a `TypeError` if a field were still non-numeric after validation (that
branch is unreachable, see `validate_none_fields_some`). -/
inductive ComputeError where
  | validation (e : VError)
  | typeCrash
deriving Repr, DecidableEq

/-- The post-validation body of `compute`: build the dataframe and figure,
render the PNG, base64-encode it, write the report file, and assemble the
summary HTML. -/
def computeReport (company_name : String) (eb gb tc mw rp tk fe : ℚ) : ComputeResult :=
  let df := make_dataframe company_name eb gb tc mw rp tk fe
  let plot := draw_report_figure df
  let img_data := b64encode (plot.to_image 1400 800 "png")
  let file_path := report_file_path company_name
  let summary := summaryHtml company_name eb gb mw rp tk img_data
  { summary := summary
    img_data := img_data
    download_path := file_path
    files_written := [file_path] }

/-- `compute` from `src/app.py`: validate first (re-raising the validation
error), then run the report pipeline on the numeric field values. -/
def compute (s : Submission) : Except ComputeError ComputeResult :=
  match validate_input s with
  | some e => .error (.validation e)
  | none =>
    match s.avg_electric_bill, s.avg_gas_bill, s.avg_transport_cost,
        s.monthly_waste_generated, s.recycled_waste_percent,
        s.annual_travel_kms, s.fuel_efficiency with
    | some eb, some gb, some tc, some mw, some rp, some tk, some fe =>
      .ok (computeReport s.company_name eb gb tc mw rp tk fe)
    | _, _, _, _, _, _, _ => .error .typeCrash

/-! ### Reshaping `validate_input` into a chain of checks -/

/-- The recycled-percentage tail of `validate_input`, as a function. -/
def percentageCheck (v : Option ℚ) : Option VError :=
  match v with
  | none => some .percentNotANumber
  | some recycled_percent =>
    if recycled_percent < 0 ∨ 100 < recycled_percent then some .percentOutOfRange
    else none

theorem loopNonZeroFields_cons (entry : String × Option ℚ)
    (rest : List (String × Option ℚ)) :
    loopNonZeroFields (entry :: rest) =
      (checkNonZeroField entry).or (loopNonZeroFields rest) := by
  show (match checkNonZeroField entry with
        | some e => some e
        | none => loopNonZeroFields rest) = _
  cases checkNonZeroField entry <;> rfl

/-- `validate_input` is the first `some` of the chain
name-empty / name-too-long / field loop / percentage. -/
theorem validate_input_eq_or (s : Submission) :
    validate_input s =
      ((if s.company_name = "" ∨ pyIsSpace s.company_name = true
          then some VError.nameEmpty else none).or
        ((if 100 < s.company_name.length then some VError.nameTooLong else none).or
          ((loopNonZeroFields (non_zero_fields s)).or
            (percentageCheck s.recycled_waste_percent)))) := by
  unfold validate_input
  split_ifs with h1 h2 <;> try rfl
  show _ = (loopNonZeroFields (non_zero_fields s)).or
      (percentageCheck s.recycled_waste_percent)
  cases hl : loopNonZeroFields (non_zero_fields s) with
  | some e => rfl
  | none =>
    show (match s.recycled_waste_percent with
          | none => some VError.percentNotANumber
          | some recycled_percent =>
            if recycled_percent < 0 ∨ 100 < recycled_percent
              then some VError.percentOutOfRange else none) = _
    cases s.recycled_waste_percent <;> rfl

theorem option_or_eq_none {a b : Option VError} :
    a.or b = none ↔ a = none ∧ b = none := by
  cases a <;> simp [Option.or]

theorem option_or_eq_some {a b : Option VError} {e : VError}
    (h : a.or b = some e) : a = some e ∨ (a = none ∧ b = some e) := by
  cases a with
  | none => exact Or.inr ⟨rfl, h⟩
  | some x => exact Or.inl h

/-! ### Inversion lemmas for `validate_input` -/

theorem checkNonZeroField_none_cases (name : String) (v : Option ℚ)
    (h : checkNonZeroField (name, v) = none) :
    ∃ x, v = some x ∧ 0 < x ∧ (name = "Electricity Bill" → x ≤ 10000) ∧
      (name = "Monthly Waste" → x ≤ 1000) := by
  cases v with
  | none => simp [checkNonZeroField] at h
  | some x =>
    simp only [checkNonZeroField] at h
    split_ifs at h with h1 h2 h3
    push_neg at h2 h3
    exact ⟨x, rfl, lt_of_not_le h1, h2, h3⟩

theorem checkNonZeroField_some_cases (name : String) (v : Option ℚ) (e : VError)
    (h : checkNonZeroField (name, v) = some e) :
    (v = none ∧ e = .notANumber name)
    ∨ (∃ x, v = some x ∧ x ≤ 0 ∧ e = .notPositive name)
    ∨ (∃ x, v = some x ∧ name = "Electricity Bill" ∧ 10000 < x ∧ e = .electricityTooHigh)
    ∨ (∃ x, v = some x ∧ name = "Monthly Waste" ∧ 1000 < x ∧ e = .wasteTooHigh) := by
  cases v with
  | none =>
    simp only [checkNonZeroField, Option.some.injEq] at h
    exact Or.inl ⟨rfl, h.symm⟩
  | some x =>
    simp only [checkNonZeroField] at h
    split_ifs at h with h1 h2 h3
    · exact Or.inr (Or.inl ⟨x, rfl, h1, ((Option.some.injEq _ _).mp h).symm⟩)
    · exact Or.inr (Or.inr (Or.inl ⟨x, rfl, h2.1, h2.2, ((Option.some.injEq _ _).mp h).symm⟩))
    · exact Or.inr (Or.inr (Or.inr ⟨x, rfl, h3.1, h3.2, ((Option.some.injEq _ _).mp h).symm⟩))

theorem loopNonZeroFields_eq_none_iff (l : List (String × Option ℚ)) :
    loopNonZeroFields l = none ↔ ∀ entry ∈ l, checkNonZeroField entry = none := by
  induction l with
  | nil => simp [loopNonZeroFields]
  | cons a t ih =>
    rw [loopNonZeroFields_cons, option_or_eq_none, ih]
    simp

theorem loopNonZeroFields_some_mem (l : List (String × Option ℚ)) (e : VError)
    (h : loopNonZeroFields l = some e) :
    ∃ entry ∈ l, checkNonZeroField entry = some e := by
  induction l with
  | nil => simp [loopNonZeroFields] at h
  | cons a t ih =>
    rw [loopNonZeroFields_cons] at h
    rcases option_or_eq_some h with h1 | ⟨-, h2⟩
    · exact ⟨a, by simp, h1⟩
    · obtain ⟨entry, hm, he⟩ := ih h2
      exact ⟨entry, by simp [hm], he⟩

/-- Everything that must hold when `validate_input` raises nothing. -/
theorem validate_input_none_cases (s : Submission) (h : validate_input s = none) :
    (¬ s.company_name = "" ∧ ¬ pyIsSpace s.company_name = true)
    ∧ s.company_name.length ≤ 100
    ∧ (∀ entry ∈ non_zero_fields s, checkNonZeroField entry = none)
    ∧ (∃ p, s.recycled_waste_percent = some p ∧ 0 ≤ p ∧ p ≤ 100) := by
  rw [validate_input_eq_or, option_or_eq_none] at h
  obtain ⟨hn1, h⟩ := h
  rw [option_or_eq_none] at h
  obtain ⟨hn2, h⟩ := h
  rw [option_or_eq_none] at h
  obtain ⟨hloop, hperc⟩ := h
  have hA : ¬(s.company_name = "" ∨ pyIsSpace s.company_name = true) := by
    intro hA
    rw [if_pos hA] at hn1
    exact Option.noConfusion hn1
  have hB : ¬ 100 < s.company_name.length := by
    intro hB
    rw [if_pos hB] at hn2
    exact Option.noConfusion hn2
  push_neg at hA
  refine ⟨hA, le_of_not_lt hB, (loopNonZeroFields_eq_none_iff _).mp hloop, ?_⟩
  cases hr : s.recycled_waste_percent with
  | none => rw [hr] at hperc; simp [percentageCheck] at hperc
  | some p =>
    rw [hr] at hperc
    simp only [percentageCheck] at hperc
    split_ifs at hperc with h3
    push_neg at h3
    exact ⟨p, rfl, h3.1, h3.2⟩
/-- The per-field consequences of a passing validation. -/
theorem validate_input_none_fields (s : Submission) (h : validate_input s = none) :
    (∃ x, s.avg_electric_bill = some x ∧ 0 < x ∧ x ≤ 10000)
    ∧ (∃ x, s.avg_gas_bill = some x ∧ 0 < x)
    ∧ (∃ x, s.avg_transport_cost = some x ∧ 0 < x)
    ∧ (∃ x, s.monthly_waste_generated = some x ∧ 0 < x ∧ x ≤ 1000)
    ∧ (∃ x, s.annual_travel_kms = some x ∧ 0 < x)
    ∧ (∃ x, s.fuel_efficiency = some x ∧ 0 < x) := by
  have hfields := (validate_input_none_cases s h).2.2.1
  simp only [non_zero_fields, List.mem_cons, List.not_mem_nil, or_false,
    forall_eq_or_imp, forall_eq] at hfields
  obtain ⟨he, hg, ht, hw, hk, hf⟩ := hfields
  obtain ⟨xe, hxe, hxe1, hxe2, -⟩ := checkNonZeroField_none_cases _ _ he
  obtain ⟨xg, hxg, hxg1, -, -⟩ := checkNonZeroField_none_cases _ _ hg
  obtain ⟨xt, hxt, hxt1, -, -⟩ := checkNonZeroField_none_cases _ _ ht
  obtain ⟨xw, hxw, hxw1, -, hxw2⟩ := checkNonZeroField_none_cases _ _ hw
  obtain ⟨xk, hxk, hxk1, -, -⟩ := checkNonZeroField_none_cases _ _ hk
  obtain ⟨xf, hxf, hxf1, -, -⟩ := checkNonZeroField_none_cases _ _ hf
  exact ⟨⟨xe, hxe, hxe1, hxe2 rfl⟩, ⟨xg, hxg, hxg1⟩, ⟨xt, hxt, hxt1⟩,
    ⟨xw, hxw, hxw1, hxw2 rfl⟩, ⟨xk, hxk, hxk1⟩, ⟨xf, hxf, hxf1⟩⟩

theorem percentageCheck_some_cases (v : Option ℚ) (e : VError)
    (h : percentageCheck v = some e) :
    (v = none ∧ e = .percentNotANumber)
    ∨ (∃ p, v = some p ∧ (p < 0 ∨ 100 < p) ∧ e = .percentOutOfRange) := by
  cases v with
  | none =>
    simp only [percentageCheck, Option.some.injEq] at h
    exact Or.inl ⟨rfl, h.symm⟩
  | some p =>
    simp only [percentageCheck] at h
    split_ifs at h with h1
    exact Or.inr ⟨p, rfl, h1, ((Option.some.injEq _ _).mp h).symm⟩

/-- Case analysis on which check produced a raised error. -/
theorem validate_input_some_cases (s : Submission) (e : VError)
    (h : validate_input s = some e) :
    (e = .nameEmpty ∧ (s.company_name = "" ∨ pyIsSpace s.company_name = true))
    ∨ (e = .nameTooLong ∧ 100 < s.company_name.length)
    ∨ (∃ entry ∈ non_zero_fields s, checkNonZeroField entry = some e)
    ∨ percentageCheck s.recycled_waste_percent = some e := by
  rw [validate_input_eq_or] at h
  rcases option_or_eq_some h with h1 | ⟨-, h⟩
  · split_ifs at h1 with hc
    exact Or.inl ⟨((Option.some.injEq _ _).mp h1).symm, hc⟩
  rcases option_or_eq_some h with h2 | ⟨-, h⟩
  · split_ifs at h2 with hc
    exact Or.inr (Or.inl ⟨((Option.some.injEq _ _).mp h2).symm, hc⟩)
  rcases option_or_eq_some h with h3 | ⟨-, h4⟩
  · exact Or.inr (Or.inr (Or.inl (loopNonZeroFields_some_mem _ _ h3)))
  · exact Or.inr (Or.inr (Or.inr h4))
theorem validate_nameEmpty_inv (s : Submission)
    (h : validate_input s = some .nameEmpty) :
    s.company_name = "" ∨ pyIsSpace s.company_name = true := by
  rcases validate_input_some_cases s _ h with ⟨-, hc⟩ | ⟨he, -⟩ | ⟨entry, -, hc⟩ | hp
  · exact hc
  · exact absurd he (by simp)
  · obtain ⟨name, v⟩ := entry
    rcases checkNonZeroField_some_cases name v _ hc with
      ⟨-, he⟩ | ⟨x, -, -, he⟩ | ⟨x, -, -, -, he⟩ | ⟨x, -, -, -, he⟩ <;> exact absurd he (by simp)
  · rcases percentageCheck_some_cases _ _ hp with ⟨-, he⟩ | ⟨p, -, -, he⟩ <;>
      exact absurd he (by simp)

theorem validate_nameTooLong_inv (s : Submission)
    (h : validate_input s = some .nameTooLong) :
    100 < s.company_name.length := by
  rcases validate_input_some_cases s _ h with ⟨he, -⟩ | ⟨-, hc⟩ | ⟨entry, -, hc⟩ | hp
  · exact absurd he (by simp)
  · exact hc
  · obtain ⟨name, v⟩ := entry
    rcases checkNonZeroField_some_cases name v _ hc with
      ⟨-, he⟩ | ⟨x, -, -, he⟩ | ⟨x, -, -, -, he⟩ | ⟨x, -, -, -, he⟩ <;> exact absurd he (by simp)
  · rcases percentageCheck_some_cases _ _ hp with ⟨-, he⟩ | ⟨p, -, -, he⟩ <;>
      exact absurd he (by simp)

theorem validate_electricityTooHigh_inv (s : Submission)
    (h : validate_input s = some .electricityTooHigh) :
    ∃ x, s.avg_electric_bill = some x ∧ 10000 < x := by
  rcases validate_input_some_cases s _ h with ⟨he, -⟩ | ⟨he, -⟩ | ⟨entry, hm, hc⟩ | hp
  · exact absurd he (by simp)
  · exact absurd he (by simp)
  · obtain ⟨name, v⟩ := entry
    rcases checkNonZeroField_some_cases name v _ hc with
      ⟨-, he⟩ | ⟨x, -, -, he⟩ | ⟨x, hv, hn, hx, -⟩ | ⟨x, -, -, -, he⟩
    · exact absurd he (by simp)
    · exact absurd he (by simp)
    · subst hn hv
      simp only [non_zero_fields, List.mem_cons, List.not_mem_nil, or_false,
        Prod.mk.injEq] at hm
      rcases hm with ⟨-, h1⟩ | ⟨h0, -⟩ | ⟨h0, -⟩ | ⟨h0, -⟩ | ⟨h0, -⟩ | ⟨h0, -⟩
      · exact ⟨x, h1.symm, hx⟩
      all_goals exact absurd h0 (by simp)
    · exact absurd he (by simp)
  · rcases percentageCheck_some_cases _ _ hp with ⟨-, he⟩ | ⟨p, -, -, he⟩ <;>
      exact absurd he (by simp)

theorem validate_wasteTooHigh_inv (s : Submission)
    (h : validate_input s = some .wasteTooHigh) :
    ∃ x, s.monthly_waste_generated = some x ∧ 1000 < x := by
  rcases validate_input_some_cases s _ h with ⟨he, -⟩ | ⟨he, -⟩ | ⟨entry, hm, hc⟩ | hp
  · exact absurd he (by simp)
  · exact absurd he (by simp)
  · obtain ⟨name, v⟩ := entry
    rcases checkNonZeroField_some_cases name v _ hc with
      ⟨-, he⟩ | ⟨x, -, -, he⟩ | ⟨x, -, -, -, he⟩ | ⟨x, hv, hn, hx, -⟩
    · exact absurd he (by simp)
    · exact absurd he (by simp)
    · exact absurd he (by simp)
    · subst hn hv
      simp only [non_zero_fields, List.mem_cons, List.not_mem_nil, or_false,
        Prod.mk.injEq] at hm
      rcases hm with ⟨h0, -⟩ | ⟨h0, -⟩ | ⟨h0, -⟩ | ⟨-, h1⟩ | ⟨h0, -⟩ | ⟨h0, -⟩
      · exact absurd h0 (by simp)
      · exact absurd h0 (by simp)
      · exact absurd h0 (by simp)
      · exact ⟨x, h1.symm, hx⟩
      · exact absurd h0 (by simp)
      · exact absurd h0 (by simp)
  · rcases percentageCheck_some_cases _ _ hp with ⟨-, he⟩ | ⟨p, -, -, he⟩ <;>
      exact absurd he (by simp)

theorem validate_percentNotANumber_inv (s : Submission)
    (h : validate_input s = some .percentNotANumber) :
    s.recycled_waste_percent = none := by
  rcases validate_input_some_cases s _ h with ⟨he, -⟩ | ⟨he, -⟩ | ⟨entry, -, hc⟩ | hp
  · exact absurd he (by simp)
  · exact absurd he (by simp)
  · obtain ⟨name, v⟩ := entry
    rcases checkNonZeroField_some_cases name v _ hc with
      ⟨-, he⟩ | ⟨x, -, -, he⟩ | ⟨x, -, -, -, he⟩ | ⟨x, -, -, -, he⟩ <;> exact absurd he (by simp)
  · rcases percentageCheck_some_cases _ _ hp with ⟨hn, -⟩ | ⟨p, -, -, he⟩
    · exact hn
    · exact absurd he (by simp)

theorem validate_percentOutOfRange_inv (s : Submission)
    (h : validate_input s = some .percentOutOfRange) :
    ∃ p, s.recycled_waste_percent = some p ∧ (p < 0 ∨ 100 < p) := by
  rcases validate_input_some_cases s _ h with ⟨he, -⟩ | ⟨he, -⟩ | ⟨entry, -, hc⟩ | hp
  · exact absurd he (by simp)
  · exact absurd he (by simp)
  · obtain ⟨name, v⟩ := entry
    rcases checkNonZeroField_some_cases name v _ hc with
      ⟨-, he⟩ | ⟨x, -, -, he⟩ | ⟨x, -, -, -, he⟩ | ⟨x, -, -, -, he⟩ <;> exact absurd he (by simp)
  · rcases percentageCheck_some_cases _ _ hp with ⟨-, he⟩ | ⟨p, hv, hp2, -⟩
    · exact absurd he (by simp)
    · exact ⟨p, hv, hp2⟩

theorem validate_notANumber_inv (s : Submission) (f : String)
    (h : validate_input s = some (.notANumber f)) :
    (f, (none : Option ℚ)) ∈ non_zero_fields s := by
  rcases validate_input_some_cases s _ h with ⟨he, -⟩ | ⟨he, -⟩ | ⟨entry, hm, hc⟩ | hp
  · exact absurd he (by simp)
  · exact absurd he (by simp)
  · obtain ⟨name, v⟩ := entry
    rcases checkNonZeroField_some_cases name v _ hc with
      ⟨hv, he⟩ | ⟨x, -, -, he⟩ | ⟨x, -, -, -, he⟩ | ⟨x, -, -, -, he⟩
    · obtain rfl : f = name := by simpa using he
      exact hv ▸ hm
    · exact absurd he (by simp)
    · exact absurd he (by simp)
    · exact absurd he (by simp)
  · rcases percentageCheck_some_cases _ _ hp with ⟨-, he⟩ | ⟨p, -, -, he⟩ <;>
      exact absurd he (by simp)

theorem validate_notPositive_inv (s : Submission) (f : String)
    (h : validate_input s = some (.notPositive f)) :
    ∃ x, (f, some x) ∈ non_zero_fields s ∧ x ≤ 0 := by
  rcases validate_input_some_cases s _ h with ⟨he, -⟩ | ⟨he, -⟩ | ⟨entry, hm, hc⟩ | hp
  · exact absurd he (by simp)
  · exact absurd he (by simp)
  · obtain ⟨name, v⟩ := entry
    rcases checkNonZeroField_some_cases name v _ hc with
      ⟨-, he⟩ | ⟨x, hv, hx, he⟩ | ⟨x, -, -, -, he⟩ | ⟨x, -, -, -, he⟩
    · exact absurd he (by simp)
    · obtain rfl : f = name := by simpa using he
      exact ⟨x, hv ▸ hm, hx⟩
    · exact absurd he (by simp)
    · exact absurd he (by simp)
  · rcases percentageCheck_some_cases _ _ hp with ⟨-, he⟩ | ⟨p, -, -, he⟩ <;>
      exact absurd he (by simp)
/-! ### Lemmas about `compute` -/

theorem compute_error_of_invalid (s : Submission) (e : VError)
    (h : validate_input s = some e) :
    compute s = .error (.validation e) := by
  simp only [compute, h]

theorem compute_ok_of_valid (s : Submission) (h : validate_input s = none) :
    ∃ eb gb tc mw rp tk fe,
      s.avg_electric_bill = some eb ∧ s.avg_gas_bill = some gb ∧
      s.avg_transport_cost = some tc ∧ s.monthly_waste_generated = some mw ∧
      s.recycled_waste_percent = some rp ∧ s.annual_travel_kms = some tk ∧
      s.fuel_efficiency = some fe ∧
      compute s = .ok (computeReport s.company_name eb gb tc mw rp tk fe) := by
  obtain ⟨⟨eb, heb, -⟩, ⟨gb, hgb, -⟩, ⟨tc, htc, -⟩, ⟨mw, hmw, -⟩, ⟨tk, htk, -⟩,
    ⟨fe, hfe, -⟩⟩ := validate_input_none_fields s h
  obtain ⟨p, hp, -⟩ := (validate_input_none_cases s h).2.2.2
  refine ⟨eb, gb, tc, mw, p, tk, fe, heb, hgb, htc, hmw, hp, htk, hfe, ?_⟩
  simp only [compute, h, heb, hgb, htc, hmw, hp, htk, hfe]

/-! ### Non-emptiness of the produced artifacts -/

theorem string_mk4_ne_empty (c1 c2 c3 c4 : Char) :
    String.mk [c1, c2, c3, c4] ≠ "" := by
  intro h
  have h4 : (String.mk [c1, c2, c3, c4]).length = 4 := rfl
  rw [h] at h4
  exact absurd h4 (by decide)

theorem b64encode_cons_ne_empty (a : ℕ) (l : List ℕ) :
    b64encode (a :: l) ≠ "" := by
  match l with
  | [] => exact string_mk4_ne_empty _ _ _ _
  | [b] => exact string_mk4_ne_empty _ _ _ _
  | b :: c :: rest =>
    show String.mk _ ++ b64encode rest ≠ ""
    intro h
    have h4 := congrArg String.length h
    rw [String.length_append] at h4
    have h5 : (String.mk [b64char (a / 4), b64char (a % 4 * 16 + b / 16),
        b64char (b % 16 * 4 + c / 64), b64char (c % 64)]).length = 4 := rfl
    have h6 : ("" : String).length = 0 := rfl
    rw [h5, h6] at h4
    omega
theorem summaryHtml_ne_empty (company_name : String)
    (eb gb mw rp tk : ℚ) (img_data : String) :
    summaryHtml company_name eb gb mw rp tk img_data ≠ "" := by
  intro h
  have h4 := congrArg String.length h
  simp only [summaryHtml, String.length_append] at h4
  have h5 : 0 < ("    </div>\n    " : String).length := by decide
  have h6 : ("" : String).length = 0 := rfl
  rw [h6] at h4
  omega

theorem computeReport_summary_ne_empty (n : String) (eb gb tc mw rp tk fe : ℚ) :
    (computeReport n eb gb tc mw rp tk fe).summary ≠ "" :=
  summaryHtml_ne_empty n eb gb mw rp tk _

theorem computeReport_img_ne_empty (n : String) (eb gb tc mw rp tk fe : ℚ) :
    (computeReport n eb gb tc mw rp tk fe).img_data ≠ "" :=
  b64encode_cons_ne_empty 137 _

theorem computeReport_download_path (n : String) (eb gb tc mw rp tk fe : ℚ) :
    (computeReport n eb gb tc mw rp tk fe).download_path = report_file_path n := rfl

theorem computeReport_files_written (n : String) (eb gb tc mw rp tk fe : ℚ) :
    (computeReport n eb gb tc mw rp tk fe).files_written = [report_file_path n] := rfl

/-- Converse direction for a single loop iteration: value positive and
within the two name-guarded ceilings means no error. -/
theorem checkNonZeroField_eq_none_of (name : String) (x : ℚ) (h1 : 0 < x)
    (h2 : name = "Electricity Bill" → x ≤ 10000)
    (h3 : name = "Monthly Waste" → x ≤ 1000) :
    checkNonZeroField (name, some x) = none := by
  simp only [checkNonZeroField]
  rw [if_neg (not_le.mpr h1),
    if_neg (fun hc : _ ∧ _ => absurd (h2 hc.1) (not_le.mpr hc.2)),
    if_neg (fun hc : _ ∧ _ => absurd (h3 hc.1) (not_le.mpr hc.2))]
/-! ### The claimed check order (C8) -/

/-- A positivity check for one field, as C8 words it: non-numeric raises
"must be a valid number", a value ≤ 0 raises "must be positive". -/
def positivityCheck (name : String) (v : Option ℚ) : Option VError :=
  match v with
  | none => some (.notANumber name)
  | some x => if x ≤ 0 then some (.notPositive name) else none

/-- A sanity-ceiling check for one field, as C8 words it. -/
def ceilingCheck (limit : ℚ) (e : VError) (v : Option ℚ) : Option VError :=
  match v with
  | none => none
  | some x => if limit < x then some e else none

/-- The checks of `validate_input` in the order C8 claims: the two
company-name checks, the six positive fields in the order electricity
bill, gas bill, transport cost, monthly waste, annual travel kms, fuel
efficiency — each ceiling check right after its positivity check — and the
recycled percentage last. -/
def orderedChecks (s : Submission) : List (Option VError) :=
  [ if s.company_name = "" ∨ pyIsSpace s.company_name = true
      then some .nameEmpty else none,
    if 100 < s.company_name.length then some .nameTooLong else none,
    positivityCheck "Electricity Bill" s.avg_electric_bill,
    ceilingCheck 10000 .electricityTooHigh s.avg_electric_bill,
    positivityCheck "Gas Bill" s.avg_gas_bill,
    positivityCheck "Transport Cost" s.avg_transport_cost,
    positivityCheck "Monthly Waste" s.monthly_waste_generated,
    ceilingCheck 1000 .wasteTooHigh s.monthly_waste_generated,
    positivityCheck "Annual Travel Distance" s.annual_travel_kms,
    positivityCheck "Fuel Efficiency" s.fuel_efficiency,
    percentageCheck s.recycled_waste_percent ]

/-- The first failing check of a list, i.e. the error that is reported. -/
def firstFailure (checks : List (Option VError)) : Option VError :=
  checks.findSome? id

theorem option_or_assoc (a b c : Option VError) :
    (a.or b).or c = a.or (b.or c) := by
  cases a <;> rfl

theorem option_or_none (a : Option VError) : a.or none = a := by
  cases a <;> rfl

theorem findSome_id_cons (x : Option VError) (l : List (Option VError)) :
    List.findSome? id (x :: l) = x.or (List.findSome? id l) := by
  cases x <;> rfl

theorem checkNonZeroField_elec_decomp (v : Option ℚ) :
    checkNonZeroField ("Electricity Bill", v) =
      (positivityCheck "Electricity Bill" v).or
        (ceilingCheck 10000 .electricityTooHigh v) := by
  cases v with
  | none => rfl
  | some x =>
    by_cases hx : x ≤ 0
    · simp [checkNonZeroField, positivityCheck, hx, Option.or]
    · by_cases hy : (10000 : ℚ) < x <;>
        simp [checkNonZeroField, positivityCheck, ceilingCheck, hx, hy, Option.or]

theorem checkNonZeroField_waste_decomp (v : Option ℚ) :
    checkNonZeroField ("Monthly Waste", v) =
      (positivityCheck "Monthly Waste" v).or
        (ceilingCheck 1000 .wasteTooHigh v) := by
  cases v with
  | none => rfl
  | some x =>
    by_cases hx : x ≤ 0
    · simp [checkNonZeroField, positivityCheck, hx, Option.or]
    · by_cases hy : (1000 : ℚ) < x <;>
        simp [checkNonZeroField, positivityCheck, ceilingCheck, hx, hy, Option.or]

theorem checkNonZeroField_plain_decomp (name : String) (v : Option ℚ)
    (h1 : ¬ name = "Electricity Bill") (h2 : ¬ name = "Monthly Waste") :
    checkNonZeroField (name, v) = positivityCheck name v := by
  cases v with
  | none => rfl
  | some x =>
    by_cases hx : x ≤ 0 <;>
      simp [checkNonZeroField, positivityCheck, hx, h1, h2]
theorem loopNonZeroFields_nil : loopNonZeroFields [] = none := rfl

theorem findSome_id_nil : List.findSome? (id : Option VError → Option VError) [] = none := rfl

/-! ### Concrete submissions used to witness the theorems -/

/-- A submission that passes every check. -/
def goodSub : Submission :=
  { company_name := "ACME GmbH", avg_electric_bill := some 100,
    avg_gas_bill := some 50, avg_transport_cost := some 30,
    monthly_waste_generated := some 20, recycled_waste_percent := some 40,
    annual_travel_kms := some 1200, fuel_efficiency := some 8 }

def badGasSub : Submission := { goodSub with avg_gas_bill := some (-5) }

def percent150Sub : Submission := { goodSub with recycled_waste_percent := some 150 }

def percent0Sub : Submission := { goodSub with recycled_waste_percent := some 0 }

def percent100Sub : Submission := { goodSub with recycled_waste_percent := some 100 }

def emptyNameSub : Submission := { goodSub with company_name := "" }

def spacesNameSub : Submission := { goodSub with company_name := "   " }

/-- A name of U+00A0 non-breaking spaces: `str.isspace` is true on it. -/
def nbspNameSub : Submission := { goodSub with company_name := "\u00A0\u00A0" }

def longNameSub : Submission :=
  { goodSub with company_name := String.mk (List.replicate 101 'a') }

def name100Sub : Submission :=
  { goodSub with company_name := String.mk (List.replicate 100 'a') }

def elecHighSub : Submission := { goodSub with avg_electric_bill := some 20000 }

def elecAtCeilingSub : Submission := { goodSub with avg_electric_bill := some 10000 }

def wasteHighSub : Submission := { goodSub with monthly_waste_generated := some 2000 }

def wasteAtCeilingSub : Submission := { goodSub with monthly_waste_generated := some 1000 }

def abSub : Submission := { goodSub with company_name := "a b" }

def acmeSubA : Submission := { goodSub with company_name := "Acme Corporation Ltd" }

def acmeSubB : Submission := { goodSub with company_name := "Acme Corporations PLC" }
/-! ### The claims -/

/-- C1: `validate_input` raises an error whenever any of the six
must-be-positive fields (electricity bill, gas bill, transport cost,
monthly waste, annual travel kms, fuel efficiency) is non-numeric or ≤ 0,
and it raises none of the six positive-field errors when all six are
numeric and > 0. -/
theorem claim_C1_positive_field_validation (s : Submission) :
    (((s.avg_electric_bill = none ∨ ∃ x, s.avg_electric_bill = some x ∧ x ≤ 0)
      ∨ (s.avg_gas_bill = none ∨ ∃ x, s.avg_gas_bill = some x ∧ x ≤ 0)
      ∨ (s.avg_transport_cost = none ∨ ∃ x, s.avg_transport_cost = some x ∧ x ≤ 0)
      ∨ (s.monthly_waste_generated = none ∨ ∃ x, s.monthly_waste_generated = some x ∧ x ≤ 0)
      ∨ (s.annual_travel_kms = none ∨ ∃ x, s.annual_travel_kms = some x ∧ x ≤ 0)
      ∨ (s.fuel_efficiency = none ∨ ∃ x, s.fuel_efficiency = some x ∧ x ≤ 0)) →
      validate_input s ≠ none)
    ∧ (((∃ x, s.avg_electric_bill = some x ∧ 0 < x)
      ∧ (∃ x, s.avg_gas_bill = some x ∧ 0 < x)
      ∧ (∃ x, s.avg_transport_cost = some x ∧ 0 < x)
      ∧ (∃ x, s.monthly_waste_generated = some x ∧ 0 < x)
      ∧ (∃ x, s.annual_travel_kms = some x ∧ 0 < x)
      ∧ (∃ x, s.fuel_efficiency = some x ∧ 0 < x)) →
      ∀ f, validate_input s ≠ some (.notANumber f) ∧
        validate_input s ≠ some (.notPositive f)) := by
  constructor
  · intro hbad hnone
    obtain ⟨⟨xe, he, he1, -⟩, ⟨xg, hg, hg1⟩, ⟨xt, ht, ht1⟩, ⟨xw, hw, hw1, -⟩,
      ⟨xk, hk, hk1⟩, ⟨xf, hf, hf1⟩⟩ := validate_input_none_fields s hnone
    rcases hbad with (h | ⟨x, hx, hx0⟩) | (h | ⟨x, hx, hx0⟩) | (h | ⟨x, hx, hx0⟩) |
      (h | ⟨x, hx, hx0⟩) | (h | ⟨x, hx, hx0⟩) | (h | ⟨x, hx, hx0⟩) <;>
      simp_all <;> linarith
  · rintro ⟨⟨xe, he, he1⟩, ⟨xg, hg, hg1⟩, ⟨xt, ht, ht1⟩, ⟨xw, hw, hw1⟩,
      ⟨xk, hk, hk1⟩, ⟨xf, hf, hf1⟩⟩ f
    constructor
    · intro h
      have hmem := validate_notANumber_inv s f h
      simp only [non_zero_fields, List.mem_cons, List.not_mem_nil, or_false,
        Prod.mk.injEq] at hmem
      rcases hmem with ⟨-, h0⟩ | ⟨-, h0⟩ | ⟨-, h0⟩ | ⟨-, h0⟩ | ⟨-, h0⟩ | ⟨-, h0⟩ <;>
        simp_all
    · intro h
      obtain ⟨x, hmem, hx⟩ := validate_notPositive_inv s f h
      simp only [non_zero_fields, List.mem_cons, List.not_mem_nil, or_false,
        Prod.mk.injEq] at hmem
      rcases hmem with ⟨-, h0⟩ | ⟨-, h0⟩ | ⟨-, h0⟩ | ⟨-, h0⟩ | ⟨-, h0⟩ | ⟨-, h0⟩ <;>
        simp_all <;> linarith

/-- Witness for C1 at concrete submissions: a negative gas bill is
rejected; the all-positive submission draws no positive-field error. -/
theorem claim_C1_positive_field_validation_witness :
    validate_input badGasSub ≠ none ∧
    (validate_input goodSub ≠ some (.notANumber "Gas Bill") ∧
      validate_input goodSub ≠ some (.notPositive "Gas Bill")) :=
  ⟨(claim_C1_positive_field_validation badGasSub).1
      (Or.inr (Or.inl (Or.inr ⟨-5, rfl, by norm_num⟩))),
   (claim_C1_positive_field_validation goodSub).2
      ⟨⟨100, rfl, by norm_num⟩, ⟨50, rfl, by norm_num⟩, ⟨30, rfl, by norm_num⟩,
       ⟨20, rfl, by norm_num⟩, ⟨1200, rfl, by norm_num⟩, ⟨8, rfl, by norm_num⟩⟩
      "Gas Bill"⟩

/-- C2: every numeric recycled-waste percentage < 0 or > 100 is rejected,
and no percentage error is raised for a numeric value in [0, 100]
(boundaries 0 and 100 included). -/
theorem claim_C2_recycled_percentage (s : Submission) :
    (∀ p, s.recycled_waste_percent = some p → (p < 0 ∨ 100 < p) →
      validate_input s ≠ none)
    ∧ (∀ p, s.recycled_waste_percent = some p → 0 ≤ p → p ≤ 100 →
      validate_input s ≠ some .percentOutOfRange ∧
        validate_input s ≠ some .percentNotANumber) := by
  constructor
  · intro p hp hout hnone
    obtain ⟨q, hq, hq0, hq100⟩ := (validate_input_none_cases s hnone).2.2.2
    rw [hp] at hq
    obtain rfl : p = q := by simpa using hq
    rcases hout with h | h <;> linarith
  · intro p hp h0 h100
    constructor
    · intro h
      obtain ⟨q, hq, hout⟩ := validate_percentOutOfRange_inv s h
      rw [hp] at hq
      obtain rfl : p = q := by simpa using hq
      rcases hout with h | h <;> linarith
    · intro h
      have hn := validate_percentNotANumber_inv s h
      rw [hp] at hn
      exact Option.noConfusion hn

/-- Witness for C2: 150 is rejected; the boundary values 0 and 100 raise
no percentage error. -/
theorem claim_C2_recycled_percentage_witness :
    validate_input percent150Sub ≠ none ∧
    (validate_input percent0Sub ≠ some .percentOutOfRange ∧
      validate_input percent0Sub ≠ some .percentNotANumber) ∧
    (validate_input percent100Sub ≠ some .percentOutOfRange ∧
      validate_input percent100Sub ≠ some .percentNotANumber) :=
  ⟨(claim_C2_recycled_percentage percent150Sub).1 150 rfl (by norm_num),
   (claim_C2_recycled_percentage percent0Sub).2 0 rfl (by norm_num) (by norm_num),
   (claim_C2_recycled_percentage percent100Sub).2 100 rfl (by norm_num) (by norm_num)⟩

/-- C3: an empty or whitespace-only company name is rejected, a name of
more than 100 characters is rejected, and a non-whitespace name of exactly
100 characters draws no company-name error. -/
theorem claim_C3_company_name (s : Submission) :
    ((s.company_name = "" ∨ pyIsSpace s.company_name = true) → validate_input s ≠ none)
    ∧ (100 < s.company_name.length → validate_input s ≠ none)
    ∧ ((s.company_name.length = 100 ∧ pyIsSpace s.company_name ≠ true) →
      validate_input s ≠ some .nameEmpty ∧ validate_input s ≠ some .nameTooLong) := by
  refine ⟨?_, ?_, ?_⟩
  · intro hbad hnone
    obtain ⟨⟨h1, h2⟩, -, -, -⟩ := validate_input_none_cases s hnone
    rcases hbad with h | h
    · exact h1 h
    · exact h2 h
  · intro hlong hnone
    have hle := (validate_input_none_cases s hnone).2.1
    omega
  · rintro ⟨hlen, hspace⟩
    constructor
    · intro h
      rcases validate_nameEmpty_inv s h with h | h
      · rw [h] at hlen
        exact absurd hlen (by decide)
      · exact hspace h
    · intro h
      have hlt := validate_nameTooLong_inv s h
      omega

/-- Witness for C3: "", "   " and a name of U+00A0 non-breaking spaces
(whitespace for Python `str.isspace`) are rejected, as is a 101-character
name; a 100-character name of letters draws no company-name error. -/
theorem claim_C3_company_name_witness :
    validate_input emptyNameSub ≠ none ∧
    validate_input spacesNameSub ≠ none ∧
    validate_input nbspNameSub ≠ none ∧
    validate_input longNameSub ≠ none ∧
    (validate_input name100Sub ≠ some .nameEmpty ∧
      validate_input name100Sub ≠ some .nameTooLong) :=
  ⟨(claim_C3_company_name emptyNameSub).1 (Or.inl rfl),
   (claim_C3_company_name spacesNameSub).1 (Or.inr (by decide)),
   (claim_C3_company_name nbspNameSub).1 (Or.inr (by decide)),
   (claim_C3_company_name longNameSub).2.1 (by decide),
   (claim_C3_company_name name100Sub).2.2 ⟨by decide, by decide⟩⟩

/-- C4: an electricity bill > 10000 is rejected while exactly 10000 draws
no ceiling error; a monthly waste > 1000 is rejected while a value at or
below 1000 draws no waste-ceiling error. -/
theorem claim_C4_sanity_ceilings (s : Submission) :
    (∀ x, s.avg_electric_bill = some x → 10000 < x → validate_input s ≠ none)
    ∧ (∀ x, s.avg_electric_bill = some x → x ≤ 10000 →
        validate_input s ≠ some .electricityTooHigh)
    ∧ (∀ x, s.monthly_waste_generated = some x → 1000 < x → validate_input s ≠ none)
    ∧ (∀ x, s.monthly_waste_generated = some x → x ≤ 1000 →
        validate_input s ≠ some .wasteTooHigh) := by
  refine ⟨?_, ?_, ?_, ?_⟩
  · intro x hx hhi hnone
    obtain ⟨⟨y, hy, -, hy2⟩, -⟩ := validate_input_none_fields s hnone
    rw [hx] at hy
    obtain rfl : x = y := by simpa using hy
    linarith
  · intro x hx hle h
    obtain ⟨y, hy, hhi⟩ := validate_electricityTooHigh_inv s h
    rw [hx] at hy
    obtain rfl : x = y := by simpa using hy
    linarith
  · intro x hx hhi hnone
    obtain ⟨-, -, -, ⟨y, hy, -, hy2⟩, -, -⟩ := validate_input_none_fields s hnone
    rw [hx] at hy
    obtain rfl : x = y := by simpa using hy
    linarith
  · intro x hx hle h
    obtain ⟨y, hy, hhi⟩ := validate_wasteTooHigh_inv s h
    rw [hx] at hy
    obtain rfl : x = y := by simpa using hy
    linarith

/-- Witness for C4 at concrete submissions: 20000 and 2000 are rejected,
10000 and 1000 draw no ceiling error. -/
theorem claim_C4_sanity_ceilings_witness :
    validate_input elecHighSub ≠ none ∧
    validate_input elecAtCeilingSub ≠ some .electricityTooHigh ∧
    validate_input wasteHighSub ≠ none ∧
    validate_input wasteAtCeilingSub ≠ some .wasteTooHigh :=
  ⟨(claim_C4_sanity_ceilings elecHighSub).1 20000 rfl (by norm_num),
   (claim_C4_sanity_ceilings elecAtCeilingSub).2.1 10000 rfl (by norm_num),
   (claim_C4_sanity_ceilings wasteHighSub).2.2.1 2000 rfl (by norm_num),
   (claim_C4_sanity_ceilings wasteAtCeilingSub).2.2.2 1000 rfl (by norm_num)⟩

/-- C5: a submission that passes validation makes `compute` return a
result with a non-empty summary and a non-empty base64 image payload, and
`compute` is deterministic: the same inputs give the same result. -/
theorem claim_C5_valid_compute (s : Submission) (h : validate_input s = none) :
    ∃ r, compute s = .ok r ∧ r.summary ≠ "" ∧ r.img_data ≠ "" ∧
      ∀ s2 : Submission, s2 = s → compute s2 = compute s := by
  obtain ⟨eb, gb, tc, mw, rp, tk, fe, -, -, -, -, -, -, -, hok⟩ :=
    compute_ok_of_valid s h
  exact ⟨_, hok, computeReport_summary_ne_empty _ _ _ _ _ _ _ _,
    computeReport_img_ne_empty _ _ _ _ _ _ _ _, fun s2 h2 => by rw [h2]⟩

/-- Witness for C5 at a concrete valid submission. -/
theorem claim_C5_valid_compute_witness :
    ∃ r, compute goodSub = .ok r ∧ r.summary ≠ "" ∧ r.img_data ≠ "" ∧
      ∀ s2 : Submission, s2 = goodSub → compute s2 = compute goodSub :=
  claim_C5_valid_compute goodSub (by decide)
/-- The path that C6's wording ("lowercasing it, stripping out its spaces,
and truncating it") prescribes: the spaces are removed rather than
replaced by underscores. -/
def reportPathSpaceStripped (company_name : String) : String :=
  "./reports/" ++
    pyTake (String.mk ((pyLower company_name).data.filter (fun c => c ≠ ' '))) 10 ++
    "_report.pdf"

/-- C6 counterexample: for the valid company name "a b" the code writes
`./reports/a_b_report.pdf` — the space is replaced by an underscore, not
stripped out — while the claimed space-stripped derivation yields
`./reports/ab_report.pdf`, a different path. -/
theorem claim_C6_report_path_counterexample :
    (compute abSub).map ComputeResult.download_path = .ok "./reports/a_b_report.pdf"
    ∧ reportPathSpaceStripped abSub.company_name = "./reports/ab_report.pdf"
    ∧ ("./reports/a_b_report.pdf" : String) ≠ "./reports/ab_report.pdf" := by
  obtain ⟨eb, gb, tc, mw, rp, tk, fe, -, -, -, -, -, -, -, hok⟩ :=
    compute_ok_of_valid abSub (by decide)
  refine ⟨?_, by decide, by decide⟩
  rw [hok]
  exact congrArg Except.ok
    (by decide : report_file_path abSub.company_name = "./reports/a_b_report.pdf")

/-- C6 (amended): for every valid submission the report path is derived
from the company name by lowercasing it, replacing its spaces with
underscores, and truncating to the first 10 characters, between the fixed
"./reports/" prefix and "_report.pdf" suffix. -/
theorem claim_C6_report_path_amended (s : Submission)
    (h : validate_input s = none) :
    (compute s).map ComputeResult.download_path =
      .ok ("./reports/" ++
        pyTake (pyReplaceChar (pyLower s.company_name) ' ' '_') 10 ++ "_report.pdf") := by
  obtain ⟨eb, gb, tc, mw, rp, tk, fe, -, -, -, -, -, -, -, hok⟩ :=
    compute_ok_of_valid s h
  rw [hok]
  rfl

/-- Witness for the amended C6 at a concrete valid submission. -/
theorem claim_C6_report_path_amended_witness :
    (compute goodSub).map ComputeResult.download_path =
      .ok ("./reports/" ++
        pyTake (pyReplaceChar (pyLower goodSub.company_name) ' ' '_') 10 ++
        "_report.pdf") :=
  claim_C6_report_path_amended goodSub (by decide)

/-- C7: when validation fails, `compute` re-raises exactly the validation
error and produces nothing: no `ComputeResult` (and hence no dataframe,
chart, summary or report file) is created. -/
theorem claim_C7_invalid_is_atomic (s : Submission) (e : VError)
    (h : validate_input s = some e) :
    compute s = .error (.validation e) ∧
      ∀ r : ComputeResult, compute s ≠ .ok r := by
  have hc := compute_error_of_invalid s e h
  refine ⟨hc, fun r hr => ?_⟩
  rw [hc] at hr
  exact Except.noConfusion hr

/-- Witness for C7 at a concrete invalid submission. -/
theorem claim_C7_invalid_is_atomic_witness :
    compute emptyNameSub = .error (.validation .nameEmpty) ∧
      ∀ r : ComputeResult, compute emptyNameSub ≠ .ok r :=
  claim_C7_invalid_is_atomic emptyNameSub .nameEmpty (by decide)

/-- C8: `validate_input` reports the first failing check of the fixed
order: company-name checks, then the six positive fields in the order
electricity bill, gas bill, transport cost, monthly waste, annual travel
kms, fuel efficiency (each ceiling check right after its positivity
check), then the recycled percentage. -/
theorem claim_C8_check_order (s : Submission) :
    validate_input s = firstFailure (orderedChecks s) := by
  rw [validate_input_eq_or]
  simp only [firstFailure, orderedChecks, findSome_id_cons, findSome_id_nil,
    non_zero_fields, loopNonZeroFields_cons, loopNonZeroFields_nil,
    checkNonZeroField_elec_decomp, checkNonZeroField_waste_decomp,
    checkNonZeroField_plain_decomp "Gas Bill" _ (by decide) (by decide),
    checkNonZeroField_plain_decomp "Transport Cost" _ (by decide) (by decide),
    checkNonZeroField_plain_decomp "Annual Travel Distance" _ (by decide) (by decide),
    checkNonZeroField_plain_decomp "Fuel Efficiency" _ (by decide) (by decide),
    option_or_assoc, option_or_none]

/-- A family of submissions with arbitrary values in the four fields that
C9 claims have no upper ceiling, and fixed in-range values elsewhere. -/
def unboundedFieldsSub (gb tc tk fe : ℚ) : Submission :=
  { company_name := "ACME GmbH", avg_electric_bill := some 100,
    avg_gas_bill := some gb, avg_transport_cost := some tc,
    monthly_waste_generated := some 20, recycled_waste_percent := some 40,
    annual_travel_kms := some tk, fuel_efficiency := some fe }

/-- C9: the gas bill, transport cost, annual travel kms and fuel
efficiency fields have no upper ceiling: a positive numeric value never
draws an error of its own field, and arbitrarily large positive values of
all four pass validation outright. -/
theorem claim_C9_no_upper_ceiling (s : Submission) :
    (∀ x, s.avg_gas_bill = some x → 0 < x →
      validate_input s ≠ some (.notANumber "Gas Bill") ∧
        validate_input s ≠ some (.notPositive "Gas Bill"))
    ∧ (∀ x, s.avg_transport_cost = some x → 0 < x →
      validate_input s ≠ some (.notANumber "Transport Cost") ∧
        validate_input s ≠ some (.notPositive "Transport Cost"))
    ∧ (∀ x, s.annual_travel_kms = some x → 0 < x →
      validate_input s ≠ some (.notANumber "Annual Travel Distance") ∧
        validate_input s ≠ some (.notPositive "Annual Travel Distance"))
    ∧ (∀ x, s.fuel_efficiency = some x → 0 < x →
      validate_input s ≠ some (.notANumber "Fuel Efficiency") ∧
        validate_input s ≠ some (.notPositive "Fuel Efficiency"))
    ∧ (∀ gb tc tk fe : ℚ, 0 < gb → 0 < tc → 0 < tk → 0 < fe →
      validate_input (unboundedFieldsSub gb tc tk fe) = none) := by
  have field_ok : ∀ (f : String) (x : ℚ), 0 < x →
      (∀ v : Option ℚ, (f, v) ∈ non_zero_fields s → v = some x) →
      validate_input s ≠ some (.notANumber f) ∧
        validate_input s ≠ some (.notPositive f) := by
    intro f x hpos hval
    constructor
    · intro h
      have hmem := validate_notANumber_inv s f h
      have := hval none hmem
      exact Option.noConfusion this
    · intro h
      obtain ⟨y, hmem, hy⟩ := validate_notPositive_inv s f h
      have := hval (some y) hmem
      obtain rfl : y = x := by simpa using this
      linarith
  refine ⟨?_, ?_, ?_, ?_, ?_⟩
  · intro x hx hpos
    refine field_ok "Gas Bill" x hpos ?_
    intro v hm
    simp only [non_zero_fields, List.mem_cons, List.not_mem_nil, or_false,
      Prod.mk.injEq] at hm
    rcases hm with ⟨h0, h1⟩ | ⟨h0, h1⟩ | ⟨h0, h1⟩ | ⟨h0, h1⟩ | ⟨h0, h1⟩ | ⟨h0, h1⟩
    · exact absurd h0 (by decide)
    · rw [h1, hx]
    · exact absurd h0 (by decide)
    · exact absurd h0 (by decide)
    · exact absurd h0 (by decide)
    · exact absurd h0 (by decide)
  · intro x hx hpos
    refine field_ok "Transport Cost" x hpos ?_
    intro v hm
    simp only [non_zero_fields, List.mem_cons, List.not_mem_nil, or_false,
      Prod.mk.injEq] at hm
    rcases hm with ⟨h0, h1⟩ | ⟨h0, h1⟩ | ⟨h0, h1⟩ | ⟨h0, h1⟩ | ⟨h0, h1⟩ | ⟨h0, h1⟩
    · exact absurd h0 (by decide)
    · exact absurd h0 (by decide)
    · rw [h1, hx]
    · exact absurd h0 (by decide)
    · exact absurd h0 (by decide)
    · exact absurd h0 (by decide)
  · intro x hx hpos
    refine field_ok "Annual Travel Distance" x hpos ?_
    intro v hm
    simp only [non_zero_fields, List.mem_cons, List.not_mem_nil, or_false,
      Prod.mk.injEq] at hm
    rcases hm with ⟨h0, h1⟩ | ⟨h0, h1⟩ | ⟨h0, h1⟩ | ⟨h0, h1⟩ | ⟨h0, h1⟩ | ⟨h0, h1⟩
    · exact absurd h0 (by decide)
    · exact absurd h0 (by decide)
    · exact absurd h0 (by decide)
    · exact absurd h0 (by decide)
    · rw [h1, hx]
    · exact absurd h0 (by decide)
  · intro x hx hpos
    refine field_ok "Fuel Efficiency" x hpos ?_
    intro v hm
    simp only [non_zero_fields, List.mem_cons, List.not_mem_nil, or_false,
      Prod.mk.injEq] at hm
    rcases hm with ⟨h0, h1⟩ | ⟨h0, h1⟩ | ⟨h0, h1⟩ | ⟨h0, h1⟩ | ⟨h0, h1⟩ | ⟨h0, h1⟩
    · exact absurd h0 (by decide)
    · exact absurd h0 (by decide)
    · exact absurd h0 (by decide)
    · exact absurd h0 (by decide)
    · exact absurd h0 (by decide)
    · rw [h1, hx]
  · intro gb tc tk fe hgb htc htk hfe
    rw [validate_input_eq_or, option_or_eq_none]
    refine ⟨if_neg (by decide :
      ¬(("ACME GmbH" : String) = "" ∨ pyIsSpace "ACME GmbH" = true)), ?_⟩
    rw [option_or_eq_none]
    refine ⟨if_neg (by decide : ¬(100 < ("ACME GmbH" : String).length)), ?_⟩
    rw [option_or_eq_none]
    constructor
    · rw [loopNonZeroFields_eq_none_iff]
      intro entry hm
      simp only [non_zero_fields, List.mem_cons, List.not_mem_nil, or_false] at hm
      rcases hm with rfl | rfl | rfl | rfl | rfl | rfl
      · exact checkNonZeroField_eq_none_of _ _ (by norm_num)
          (fun _ => by norm_num) (fun hn => absurd hn (by decide))
      · exact checkNonZeroField_eq_none_of _ _ hgb
          (fun hn => absurd hn (by decide)) (fun hn => absurd hn (by decide))
      · exact checkNonZeroField_eq_none_of _ _ htc
          (fun hn => absurd hn (by decide)) (fun hn => absurd hn (by decide))
      · exact checkNonZeroField_eq_none_of _ _ (by norm_num)
          (fun hn => absurd hn (by decide)) (fun _ => by norm_num)
      · exact checkNonZeroField_eq_none_of _ _ htk
          (fun hn => absurd hn (by decide)) (fun hn => absurd hn (by decide))
      · exact checkNonZeroField_eq_none_of _ _ hfe
          (fun hn => absurd hn (by decide)) (fun hn => absurd hn (by decide))
    · show percentageCheck (some 40) = none
      decide

/-- Witness for C9: a positive gas bill draws no gas-bill error, and a
submission with huge values in all four unbounded fields validates. -/
theorem claim_C9_no_upper_ceiling_witness :
    (validate_input goodSub ≠ some (.notANumber "Gas Bill") ∧
      validate_input goodSub ≠ some (.notPositive "Gas Bill")) ∧
    validate_input (unboundedFieldsSub 123456789 987654321 55555555 44444444) = none :=
  ⟨(claim_C9_no_upper_ceiling goodSub).1 50 rfl (by norm_num),
   (claim_C9_no_upper_ceiling goodSub).2.2.2.2 123456789 987654321 55555555 44444444
     (by norm_num) (by norm_num) (by norm_num) (by norm_num)⟩

/-- C10: the report file name is not injective in the company name: the
two distinct valid names "Acme Corporation Ltd" and "Acme Corporations
PLC" both make `compute` write to `./reports/acme_corpo_report.pdf`. -/
theorem claim_C10_path_collision :
    acmeSubA.company_name ≠ acmeSubB.company_name
    ∧ (compute acmeSubA).map ComputeResult.download_path =
        .ok "./reports/acme_corpo_report.pdf"
    ∧ (compute acmeSubB).map ComputeResult.download_path =
        .ok "./reports/acme_corpo_report.pdf" := by
  obtain ⟨e1, g1, t1, m1, r1, k1, f1, -, -, -, -, -, -, -, hokA⟩ :=
    compute_ok_of_valid acmeSubA (by decide)
  obtain ⟨e2, g2, t2, m2, r2, k2, f2, -, -, -, -, -, -, -, hokB⟩ :=
    compute_ok_of_valid acmeSubB (by decide)
  refine ⟨by decide, ?_, ?_⟩
  · rw [hokA]
    exact congrArg Except.ok (by decide :
      report_file_path acmeSubA.company_name = "./reports/acme_corpo_report.pdf")
  · rw [hokB]
    exact congrArg Except.ok (by decide :
      report_file_path acmeSubB.company_name = "./reports/acme_corpo_report.pdf")

end CarbonApp
